import Mathlib

/-!
Shallow embedding of the PHIVOLCS-to-Matrix earthquake monitor
(`src/phivolcs-eq-to-matrix.go` and the later revision in `src/unnamed/part_001`,
whose `main` at lines 946-1049 is the current pipeline).  Pure functions of the
Go source are translated to Lean functions; the ambient wall clock
(`time.Now()`) and the environment-configured reference point become explicit
parameters; Go's in-place map mutation becomes explicit state passing
(functions return the updated map).  Go maps are modelled as association
lists; iterating a Go map (whose order is unspecified) is modelled as
iterating the list in its own order, so every list order represents one
admissible execution.
-/

namespace PhivolcsEq

/-- Quake record (src/unnamed/part_001 lines 884-902, `type Quake struct`):
every field is a source-formatted string. -/
structure Quake where
  DateTime : String
  Latitude : String
  Longitude : String
  Depth : String
  Magnitude : String
  Location : String
  Origin : String
  Bulletin : String
deriving DecidableEq

/-! ### Date-time parsing

Embeds Go's `time.Parse(DATE_TIME_LAYOUT, s)` for the fixed cache layout
`DATE_TIME_LAYOUT = "02 January 2006 - 03:04:05 PM"` (part_001 line 906):
a zero-padded 2-digit day, a full English month name, a 4-digit year, the
literal " - ", a 2-digit 12-hour hour, minutes, seconds, and "AM"/"PM".
Like Go, the parse validates the day against the month length (leap years
included), requires minutes and seconds below 60 and the 12-hour field at
most 12, and applies Go's AM/PM conversion.  A successful parse yields the
instant as a count of seconds on a linear civil-time axis, so `time.Time`
subtraction and order (`Sub`, `Before`, `After`) become integer subtraction
and order. -/

/-- Numeric value of an ASCII digit character, if it is one. -/
def digitVal (c : Char) : Option Nat :=
  if '0' ≤ c ∧ c ≤ '9' then some (c.toNat - 48) else none

/-- Read exactly two digits. -/
def read2 : List Char → Option (Nat × List Char)
  | c1 :: c2 :: rest => do
    let d1 ← digitVal c1
    let d2 ← digitVal c2
    pure (10 * d1 + d2, rest)
  | _ => none

/-- Read exactly four digits. -/
def read4 : List Char → Option (Nat × List Char)
  | c1 :: c2 :: c3 :: c4 :: rest => do
    let d1 ← digitVal c1
    let d2 ← digitVal c2
    let d3 ← digitVal c3
    let d4 ← digitVal c4
    pure (1000 * d1 + 100 * d2 + 10 * d3 + d4, rest)
  | _ => none

/-- Expect a literal character sequence, returning the remainder. -/
def dropLit : List Char → List Char → Option (List Char)
  | [], cs => some cs
  | l :: ls, c :: cs => if c = l then dropLit ls cs else none
  | _ :: _, [] => none

/-- The twelve full English month names with their numbers, as matched by
Go's layout token `January`. -/
def monthNames : List (Nat × List Char) :=
  [(1, "January".toList), (2, "February".toList), (3, "March".toList),
   (4, "April".toList), (5, "May".toList), (6, "June".toList),
   (7, "July".toList), (8, "August".toList), (9, "September".toList),
   (10, "October".toList), (11, "November".toList), (12, "December".toList)]

/-- Read a full month name prefix. -/
def readMonth (cs : List Char) : Option (Nat × List Char) :=
  (monthNames.filterMap fun nm => (dropLit nm.2 cs).map fun rest => (nm.1, rest)).head?

/-- Read the "AM"/"PM" marker; `true` means PM. -/
def readAMPM : List Char → Option (Bool × List Char)
  | 'P' :: 'M' :: rest => some (true, rest)
  | 'A' :: 'M' :: rest => some (false, rest)
  | _ => none

/-- Gregorian leap-year rule, as used by Go's `time` package. -/
def isLeap (y : Nat) : Bool :=
  (y % 4 == 0 && y % 100 != 0) || y % 400 == 0

/-- Number of days in a month. -/
def monthLength (y m : Nat) : Nat :=
  if m = 2 then (if isLeap y then 29 else 28)
  else if m = 4 ∨ m = 6 ∨ m = 9 ∨ m = 11 then 30
  else 31

/-- Days in year `y` before the first of month `m`. -/
def daysBeforeMonth (y m : Nat) : Nat :=
  (List.range (m - 1)).foldl (fun acc i => acc + monthLength y (i + 1)) 0

/-- Days from the proleptic-Gregorian epoch (January 1 of year 1) to the
civil date `y-m-d`. -/
def daysFromCivil (y m d : Nat) : Nat :=
  let py := y - 1
  365 * py + py / 4 + py / 400 + daysBeforeMonth y m + (d - 1) - py / 100

/-- Read the `02 January 2006 - ` part of the layout: day, month, year and
the remaining characters. -/
def readDatePart (cs : List Char) : Option (Nat × Nat × Nat × List Char) := do
  let (d, cs) ← read2 cs
  let cs ← dropLit [' '] cs
  let (mo, cs) ← readMonth cs
  let cs ← dropLit [' '] cs
  let (y, cs) ← read4 cs
  let cs ← dropLit [' ', '-', ' '] cs
  pure (d, mo, y, cs)

/-- Read the `03:04:05 PM` part of the layout, requiring the input to end
there: 12-hour hour, minutes, seconds, and the PM flag. -/
def readTimePart (cs : List Char) : Option (Nat × Nat × Nat × Bool) := do
  let (h12, cs) ← read2 cs
  let cs ← dropLit [':'] cs
  let (mi, cs) ← read2 cs
  let cs ← dropLit [':'] cs
  let (sec, cs) ← read2 cs
  let cs ← dropLit [' '] cs
  let (isPM, cs) ← readAMPM cs
  if cs = [] then pure (h12, mi, sec, isPM) else none

/-- Embedding of `time.Parse(DATE_TIME_LAYOUT, s)`: parse a cache-format
date-time string to an instant in seconds on the civil-time axis, or `none`
on any syntax or range error (Go returns a non-nil error there). -/
def parseDateTime (s : String) : Option Int := do
  let (d, mo, y, rest) ← readDatePart s.toList
  let (h12, mi, sec, isPM) ← readTimePart rest
  if 1 ≤ d ∧ d ≤ monthLength y mo ∧ h12 ≤ 12 ∧ mi ≤ 59 ∧ sec ≤ 59 then
    let h : Nat :=
      if isPM then (if h12 < 12 then h12 + 12 else h12)
      else (if h12 = 12 then 0 else h12)
    pure ((daysFromCivil y mo d : Int) * 86400 + h * 3600 + mi * 60 + sec)
  else none

/-! ### Decimal parsing

Embeds the plain-decimal fragment of Go's `strconv.ParseFloat(s, 64)` used
for magnitudes and coordinates: an optional sign, digits with an optional
fractional part (at least one digit overall), and an optional `e`/`E`
exponent with an optional sign.  The numeric value is kept exact as a
rational instead of being rounded to a binary float; the special forms
`Inf`/`NaN`/hex floats, which never occur in PHIVOLCS magnitude or
coordinate fields, are not modelled and parse as `none`. -/

/-- Longest digit prefix of a character list, with the remainder. -/
def readDigits : List Char → List Nat × List Char
  | [] => ([], [])
  | c :: rest =>
    match digitVal c with
    | some d =>
      let (ds, r) := readDigits rest
      (d :: ds, r)
    | none => ([], c :: rest)

/-- Natural number denoted by a digit list (most significant first). -/
def natOfDigits (ds : List Nat) : Nat :=
  ds.foldl (fun a d => a * 10 + d) 0

/-- Embedding of `strconv.ParseFloat` on plain decimal syntax; `none`
models a non-nil error. -/
def parseDecimal (s : String) : Option ℚ :=
  let cs := s.toList
  let (sgn, cs1) : ℚ × List Char :=
    match cs with
    | '+' :: r => (1, r)
    | '-' :: r => (-1, r)
    | r => (1, r)
  let (ip, cs2) := readDigits cs1
  let (fp, cs3) :=
    match cs2 with
    | '.' :: r => readDigits r
    | _ => ([], cs2)
  if ip.isEmpty ∧ fp.isEmpty then none
  else
    let mant : ℚ := (natOfDigits ip : ℚ) + (natOfDigits fp : ℚ) / (10 : ℚ) ^ fp.length
    match cs3 with
    | [] => some (sgn * mant)
    | e :: r =>
      if e = 'e' ∨ e = 'E' then
        let (eneg, r1) : Bool × List Char :=
          match r with
          | '+' :: rr => (false, rr)
          | '-' :: rr => (true, rr)
          | rr => (false, rr)
        let (ed, r2) := readDigits r1
        if ed.isEmpty ∨ ¬ r2.isEmpty then none
        else
          let scale : ℚ := (10 : ℚ) ^ natOfDigits ed
          some (sgn * mant * (if eneg then scale⁻¹ else scale))
      else none

/-- Embedding of `parseMag` (part_001 lines 1441-1444): `strconv.ParseFloat`
with the error ignored, so an unparseable magnitude reads as 0. -/
def parseMag (m : String) : ℚ :=
  (parseDecimal m).getD 0

/-! ### Keys, bulletin numbers and the record diff -/

/-- Embedding of `quakeLocationKey` (part_001 lines 1465-1467): the fine
ledger key. -/
def quakeLocationKey (q : Quake) : String :=
  q.DateTime ++ "|" ++ q.Location

/-- Embedding of `quakeOriginKey` (part_001 lines 1469-1471): the coarse
ledger key. -/
def quakeOriginKey (q : Quake) : String :=
  q.DateTime ++ "|" ++ q.Origin

/-- Embedding of `getBulletinNumber` (part_001 lines 1473-1484): match the
regular expression `_B(\d)F?\.html$` against the bulletin URL and return the
captured digit with `true`, or `(0, false)` when the URL does not end in
`_B<digit>.html` or `_B<digit>F.html`. -/
def getBulletinNumber (url : String) : Nat × Bool :=
  match url.toList.reverse with
  | 'l' :: 'm' :: 't' :: 'h' :: '.' :: rest =>
    match rest with
    | 'F' :: c :: 'B' :: '_' :: _ =>
      match digitVal c with
      | some n => (n, true)
      | none => (0, false)
    | c :: 'B' :: '_' :: _ =>
      match digitVal c with
      | some n => (n, true)
      | none => (0, false)
    | _ => (0, false)
  | _ => (0, false)

/-- Embedding of `quakeChanged` (part_001 lines 1456-1463): exact text
comparison of the six tracked fields. -/
def quakeChanged (a b : Quake) : Bool :=
  a.Magnitude != b.Magnitude ||
  a.Depth != b.Depth ||
  a.Location != b.Location ||
  a.Latitude != b.Latitude ||
  a.Longitude != b.Longitude ||
  a.Bulletin != b.Bulletin

/-! ### Temporal key matcher -/

/-- Embedding of `sameDateAndTimeHMWithDelta` (part_001 lines 1264-1279):
parse both timestamps (false if either fails) and compare the absolute
difference, in seconds, against `delta` minutes. -/
def sameDateAndTimeHMWithDelta (t1 t2 : String) (delta : Nat) : Bool :=
  match parseDateTime t1, parseDateTime t2 with
  | some d1, some d2 => (d1 - d2).natAbs ≤ delta * 60
  | _, _ => false

/-- Embedding of `sameDateAndTimeHM` (part_001 lines 1258-1260): the
tolerance-0 mode. -/
def sameDateAndTimeHM (t1 t2 : String) : Bool :=
  sameDateAndTimeHMWithDelta t1 t2 0

/-- Definition following the spec's words, for comparison with
`sameDateAndTimeHM`: two records are "same minute" if both timestamps parse
and their absolute difference truncates to zero minutes. -/
def specSameMinute (t1 t2 : String) : Bool :=
  match parseDateTime t1, parseDateTime t2 with
  | some d1, some d2 => (d1 - d2).natAbs / 60 = 0
  | _, _ => false

/-- Source constant `SIMILAR_Q_MIN_DELTA_THRESH` (part_001 line 928). -/
def SIMILAR_Q_MIN_DELTA_THRESH : Nat := 3

/-- Source constant `SIMILAR_Q_ORIGIN_THRESH` (part_001 line 926). -/
def SIMILAR_Q_ORIGIN_THRESH : ℚ := 60

/-! ### Revision and known-bulletin checks -/

/-- Embedding of `isRevisedQuake` (part_001 lines 1283-1294). -/
def isRevisedQuake (currentQuake pastQ : Quake) : Bool :=
  let currNum := (getBulletinNumber currentQuake.Bulletin).1
  let ok1 := (getBulletinNumber currentQuake.Bulletin).2
  let pastNum := (getBulletinNumber pastQ.Bulletin).1
  let ok2 := (getBulletinNumber pastQ.Bulletin).2
  if !ok1 || !ok2 then false
  else
    sameDateAndTimeHM currentQuake.DateTime pastQ.DateTime
      && pastQ.Origin == currentQuake.Origin
      && decide (pastNum < currNum)

/-- Embedding of `filterQuakesByDateTime` (part_001 lines 1297-1305). -/
def filterQuakesByDateTime (quakes : List Quake) (target : String) : List Quake :=
  quakes.filter fun q =>
    sameDateAndTimeHMWithDelta q.DateTime target SIMILAR_Q_MIN_DELTA_THRESH

/-- Embedding of `isKnownBulletin` (part_001 lines 1309-1312). -/
def isKnownBulletin (currentQuake pastQ : Quake) : Bool :=
  sameDateAndTimeHM currentQuake.DateTime pastQ.DateTime
    && currentQuake.Bulletin == pastQ.Bulletin

/-- Embedding of `updatedQuakeHasBeenPosted` (part_001 lines 1519-1528):
scan the notified ledger for a known bulletin matching `currentQuake`. -/
def updatedQuakeHasBeenPosted (postedQuakes : List (String × Quake))
    (currentQuake : Quake) : Bool :=
  postedQuakes.any fun postQ => isKnownBulletin currentQuake postQ.2

/-! ### Fuzzy address matcher

Modelled from the spec: the function `AddressSimilarity` is absent from
`src/` (only its call site in `determinePastQuakeThroughHeuristics` at
part_001 line 1559 is present), so its definition follows §4.2 of the spec:
lowercase, strip punctuation to whitespace, tokenize on whitespace, expand
the fixed abbreviation table, concatenate the tokens without separators,
then score `(1 - levenshtein(a,b) / max(len(a), len(b))) * 100` with
both-empty defined as 100%. -/

/-- Levenshtein recurrence with a structural fuel so that it computes by
kernel reduction; with `fuel ≥ xs.length + ys.length` (every recursive call
keeps that invariant) it is the standard Levenshtein distance. -/
def levFuel : Nat → List Char → List Char → Nat
  | _, [], ys => ys.length
  | _, x :: xs, [] => (x :: xs).length
  | 0, _, _ => 0
  | fuel + 1, x :: xs, y :: ys =>
    if x = y then levFuel fuel xs ys
    else 1 + min (levFuel fuel xs ys)
      (min (levFuel fuel (x :: xs) ys) (levFuel fuel xs (y :: ys)))

/-- Levenshtein edit distance between two character lists. -/
def lev (a b : List Char) : Nat :=
  levFuel (a.length + b.length) a b

/-- Split a character list into whitespace-separated tokens. -/
def splitTokensAux : List Char → List Char → List (List Char)
  | [], acc => if acc.isEmpty then [] else [acc.reverse]
  | c :: rest, acc =>
    if c = ' ' then
      if acc.isEmpty then splitTokensAux rest []
      else acc.reverse :: splitTokensAux rest []
    else splitTokensAux rest (c :: acc)

/-- Tokenize on whitespace. -/
def splitTokens (cs : List Char) : List (List Char) :=
  splitTokensAux cs []

/-- Modelled from the spec: the fixed abbreviation table of §4.2. -/
def expandAbbrev (t : List Char) : List Char :=
  if t = "st".toList then "street".toList
  else if t = "brgy".toList then "barangay".toList
  else if t = "blk".toList then "block".toList
  else if t = "ph".toList then "phase".toList
  else if t = "ave".toList then "avenue".toList
  else if t = "rd".toList then "road".toList
  else if t = "subd".toList then "subdivision".toList
  else t

/-- Modelled from the spec: normalization of §4.2 — lowercase, strip
punctuation to whitespace, tokenize, expand abbreviations, concatenate the
tokens without separators. -/
def normalizeAddress (s : String) : List Char :=
  let lowered := s.toList.map Char.toLower
  let stripped := lowered.map fun c => if c.isAlpha || c.isDigit then c else ' '
  ((splitTokens stripped).map expandAbbrev).flatten

/-- Modelled from the spec: `AddressSimilarity`, the edit-distance-based
percentage score of §4.2. -/
def AddressSimilarity (a b : String) : ℚ :=
  let na := normalizeAddress a
  let nb := normalizeAddress b
  if na.length = 0 ∧ nb.length = 0 then 100
  else (1 - (lev na nb : ℚ) / ((max na.length nb.length : Nat) : ℚ)) * 100

/-! ### Retention and ordering -/

/-- Sort key used by the `sort.Slice` comparator inside `mapEqToSlice`:
the parsed timestamp, with a parse failure reading as the zero instant
(the comparator ignores the parse error). -/
def sortKey (q : Quake) : Int :=
  (parseDateTime q.DateTime).getD 0

/-- Comparator relation of the `sort.Slice` call in `mapEqToSlice`:
`a` sorts no later than `b` when `a`'s parsed timestamp is no older. -/
def newerEq (a b : Quake) : Prop :=
  sortKey b ≤ sortKey a

instance : DecidableRel newerEq := fun a b =>
  inferInstanceAs (Decidable (sortKey b ≤ sortKey a))

instance : IsTotal Quake newerEq :=
  ⟨fun a b => (le_total (sortKey a) (sortKey b)).symm⟩

instance : IsTrans Quake newerEq :=
  ⟨fun _ _ _ hab hbc => le_trans hbc hab⟩

/-- The entries of the ledger map that survive the loop of `mapEqToSlice`
(part_001 lines 1491-1503): an entry is deleted exactly when its timestamp
parses and falls before the cutoff (`t.Before(now.AddDate(0, -2, 0))`); an
entry whose timestamp fails to parse is skipped but kept in the map. -/
def prunedLedger (cutoff : Int) (m : List (String × Quake)) :
    List (String × Quake) :=
  m.filter fun kv =>
    match parseDateTime kv.2.DateTime with
    | none => true
    | some t => decide (cutoff ≤ t)

/-- The quakes appended to the slice `s` by the loop of `mapEqToSlice`:
those whose timestamp parses at or after the cutoff. -/
def survivingQuakes (cutoff : Int) (m : List (String × Quake)) : List Quake :=
  (m.filter fun kv =>
    match parseDateTime kv.2.DateTime with
    | none => false
    | some t => decide (cutoff ≤ t)).map Prod.snd

/-- Embedding of `mapEqToSlice` (part_001 lines 1487-1513).  The Go
function mutates its argument map (deleting stale entries) and returns a
slice; the embedding returns both the updated map and the slice.  `cutoff`
is the instant `now.AddDate(0, -2, 0)` — two months before the current
time — made explicit because `time.Now()` is an input from the
environment.  The surviving quakes are sorted newest-first by parsed
timestamp; Go's `sort.Slice` is unstable, so any order among equal keys is
admissible and the embedding fixes one. -/
def mapEqToSlice (cutoff : Int) (m : List (String × Quake)) :
    List (String × Quake) × List Quake :=
  (prunedLedger cutoff m, List.insertionSort newerEq (survivingQuakes cutoff m))

/-! ### Heuristic identity resolution -/

/-- The acceptance test of the fuzzy-address scan in
`determinePastQuakeThroughHeuristics` (part_001 lines 1559-1566): origin
similarity at or above `SIMILAR_Q_ORIGIN_THRESH`, and the current record's
bulletin number strictly above the candidate's (both read with the ok flag
ignored, as in the source). -/
def fuzzyAccept (currentQuake pastQ : Quake) : Bool :=
  decide (SIMILAR_Q_ORIGIN_THRESH ≤ AddressSimilarity currentQuake.Origin pastQ.Origin)
    && decide ((getBulletinNumber pastQ.Bulletin).1 < (getBulletinNumber currentQuake.Bulletin).1)

/-- Embedding of `determinePastQuakeThroughHeuristics` (part_001 lines
1545-1571).  The first loop scans the ledger's values for an is-revision
match, breaking at the first hit; the second loop always runs afterwards
over the similarly-timed, newest-first candidates and overwrites the
result at its first accepted candidate. -/
def determinePastQuakeThroughHeuristics (cutoff : Int)
    (lastFetchQuakes : List (String × Quake)) (currentQuake : Quake) :
    Option Quake :=
  let revMatch := (lastFetchQuakes.map Prod.snd).find? fun pastQ =>
    isRevisedQuake currentQuake pastQ
  let similarlyTimedQuakes :=
    filterQuakesByDateTime (mapEqToSlice cutoff lastFetchQuakes).2 currentQuake.DateTime
  match similarlyTimedQuakes.find? (fun pastQ => fuzzyAccept currentQuake pastQ) with
  | some p => some p
  | none => revMatch

/-! ### Identity resolution and classification (main, part_001 lines 980-1014) -/

/-- The guard at part_001 line 986: the revision heuristic runs for a
record missed by the exact lookup whenever the extracted bulletin number
differs from 1 (extraction failure yields 0). -/
def revisionHeuristicEligible (q : Quake) : Bool :=
  (getBulletinNumber q.Bulletin).1 != 1

/-- Identity resolution for one scraped record (part_001 lines 982-989):
exact coarse-key lookup in the last-poll ledger first, then the heuristics
when the record is eligible. -/
def resolveIdentity (cutoff : Int) (lastFetchQuakes : List (String × Quake))
    (currentQuake : Quake) : Option Quake :=
  match List.lookup (quakeOriginKey currentQuake) lastFetchQuakes with
  | some p => some p
  | none =>
    if revisionHeuristicEligible currentQuake then
      determinePastQuakeThroughHeuristics cutoff lastFetchQuakes currentQuake
    else none

/-- Embedding of `isCurrentAndPastQSignificant` (part_001 lines
1534-1541), parameterized by the threshold function `threshFor` standing
for `magnitudeThresholdFor` (whose geometric core is embedded separately
over the reals): either snapshot's magnitude meets the threshold for its
own coordinates. -/
def isCurrentAndPastQSignificant (threshFor : String → String → ℚ)
    (currentQuake previousQuake : Quake) : Bool :=
  decide (threshFor currentQuake.Latitude currentQuake.Longitude ≤ parseMag currentQuake.Magnitude)
    || decide (threshFor previousQuake.Latitude previousQuake.Longitude ≤ parseMag previousQuake.Magnitude)

/-- Classification of one scraped record, labelling the branch points of
the per-record block of `main` (part_001 lines 991-1013) with the spec's
vocabulary: `newQ` and `revised` are the two notifying outcomes (the
record is appended to `changed` resp. `updated`); `duplicate` and
`insignificant` are the suppressed outcomes. -/
inductive Classification where
  | newQ : Classification
  | revised : Quake → Classification
  | duplicate : Classification
  | insignificant : Classification
deriving DecidableEq

/-- The per-record body of `main`'s classification loop (part_001 lines
980-1014), with `threshFor` standing for `magnitudeThresholdFor` and
`cutoff` for the two-month retention instant. -/
def classifyRecord (threshFor : String → String → ℚ) (cutoff : Int)
    (lastFetchQuakes postedQuakes : List (String × Quake))
    (currentQuake : Quake) : Classification :=
  match resolveIdentity cutoff lastFetchQuakes currentQuake with
  | none =>
    if (List.lookup (quakeLocationKey currentQuake) postedQuakes).isSome then
      Classification.duplicate
    else
      match parseDecimal currentQuake.Magnitude with
      | some magVal =>
        if threshFor currentQuake.Latitude currentQuake.Longitude ≤ magVal then
          Classification.newQ
        else Classification.insignificant
      | none => Classification.insignificant
  | some previousQuake =>
    if quakeChanged previousQuake currentQuake
        && !updatedQuakeHasBeenPosted postedQuakes currentQuake
        && isCurrentAndPastQSignificant threshFor currentQuake previousQuake then
      Classification.revised previousQuake
    else Classification.duplicate

/-! ### Geo-threshold policy

The Go code computes the haversine distance in `float64` with the
transcendental functions of `math`; the embedding idealizes `float64`
arithmetic as real-number arithmetic (the parsed coordinates, kept exact as
rationals, are cast into ℝ). -/

/-- Source constant `LOCAL_MAG_THRESH` (part_001 line 922). -/
def LOCAL_MAG_THRESH : ℝ := 4

/-- Source constant `GLOBAL_MAG_THRESH` (part_001 line 920). -/
def GLOBAL_MAG_THRESH : ℝ := 4.5

noncomputable section

/-- Real-number model of Go's `math.Atan2 (y, x)`. -/
def atan2 (y x : ℝ) : ℝ :=
  if 0 < x then Real.arctan (y / x)
  else if x < 0 then
    (if 0 ≤ y then Real.arctan (y / x) + Real.pi else Real.arctan (y / x) - Real.pi)
  else
    (if 0 < y then Real.pi / 2 else if y < 0 then -(Real.pi / 2) else 0)

/-- Embedding of `distanceKm` (part_001 lines 1135-1143): the haversine
formula with Earth radius 6371 km. -/
def distanceKm (lat1 lon1 lat2 lon2 : ℝ) : ℝ :=
  let dLat := (lat2 - lat1) * Real.pi / 180
  let dLon := (lon2 - lon1) * Real.pi / 180
  let a := Real.sin (dLat / 2) * Real.sin (dLat / 2) +
    Real.cos (lat1 * Real.pi / 180) * Real.cos (lat2 * Real.pi / 180) *
      Real.sin (dLon / 2) * Real.sin (dLon / 2)
  6371 * 2 * atan2 (Real.sqrt a) (Real.sqrt (1 - a))

/-- Embedding of `magnitudeThresholdFor` (part_001 lines 1146-1157),
parameterized by the environment-configured reference point and radius
(`refPointLat`, `refPointLon`, `refRadiusKm`, part_001 lines 940-942):
parse both coordinates (falling back to the global threshold on any parse
error), then return the local threshold within the radius and the global
threshold beyond it. -/
def magnitudeThresholdFor (refPointLat refPointLon refRadiusKm : ℝ)
    (latStr lonStr : String) : ℝ :=
  match parseDecimal latStr, parseDecimal lonStr with
  | some lat, some lon =>
    if distanceKm lat lon refPointLat refPointLon ≤ refRadiusKm then LOCAL_MAG_THRESH
    else GLOBAL_MAG_THRESH
  | _, _ => GLOBAL_MAG_THRESH

end

/-! ### Concrete records for counterexamples and witness evaluations -/

/-- A constant threshold function standing for `magnitudeThresholdFor` at
coordinates outside the reference radius (global threshold 4.5). -/
def constThresh45 : String → String → ℚ := fun _ _ => 9 / 2

/-- Current record for the heuristic-resolution scenario: bulletin 2. -/
def c1Cur : Quake :=
  { DateTime := "06 October 2025 - 03:04:00 PM", Latitude := "10.00",
    Longitude := "124.00", Depth := "010", Magnitude := "5.0",
    Location := "Cebu City", Origin := "Cebu City",
    Bulletin := "2025_1006_070400_B2.html" }

/-- Ledger candidate matched by the is-revision scan: identical timestamp
and origin, bulletin 1. -/
def c1P1 : Quake :=
  { DateTime := "06 October 2025 - 03:04:00 PM", Latitude := "10.00",
    Longitude := "124.00", Depth := "010", Magnitude := "4.8",
    Location := "Cebu City", Origin := "Cebu City",
    Bulletin := "2025_1006_070400_B1.html" }

/-- Ledger candidate accepted by the fuzzy-address scan: one minute later
(hence sorted first), same origin, bulletin 1. -/
def c1P2 : Quake :=
  { DateTime := "06 October 2025 - 03:05:00 PM", Latitude := "10.10",
    Longitude := "124.10", Depth := "012", Magnitude := "4.9",
    Location := "Cebu City", Origin := "Cebu City",
    Bulletin := "2025_1006_070500_B1F.html" }

/-- Last-poll ledger holding both candidates under their coarse keys. -/
def c1Ledger : List (String × Quake) :=
  [(quakeOriginKey c1P1, c1P1), (quakeOriginKey c1P2, c1P2)]

/-- Previous snapshot for the classification scenario. -/
def c3Prev : Quake :=
  { DateTime := "06 October 2025 - 03:04:00 PM", Latitude := "10.00",
    Longitude := "124.00", Depth := "010", Magnitude := "4.8",
    Location := "Cebu City", Origin := "Cebu City",
    Bulletin := "2025_1006_070400_B1.html" }

/-- Current record for the classification scenario: same coarse key as
`c3Prev`, revised magnitude, bulletin 2. -/
def c3Cur : Quake :=
  { DateTime := "06 October 2025 - 03:04:00 PM", Latitude := "10.00",
    Longitude := "124.00", Depth := "010", Magnitude := "5.0",
    Location := "Cebu City", Origin := "Cebu City",
    Bulletin := "2025_1006_070400_B2.html" }

/-- Notified-ledger entry that already announced the exact bulletin of
`c3Cur`, with the timestamp jittered by 30 seconds within the same
minute. -/
def c3PostedQ : Quake :=
  { DateTime := "06 October 2025 - 03:04:30 PM", Latitude := "10.00",
    Longitude := "124.00", Depth := "010", Magnitude := "5.0",
    Location := "Cebu City", Origin := "Cebu City",
    Bulletin := "2025_1006_070400_B2.html" }

/-- Last-poll ledger for the classification scenario. -/
def c3LastFetch : List (String × Quake) :=
  [(quakeOriginKey c3Prev, c3Prev)]

/-- Notified ledger for the classification scenario. -/
def c3PostedLedger : List (String × Quake) :=
  [(quakeLocationKey c3PostedQ, c3PostedQ)]

/-- Record with no previous snapshot and first bulletin, for the
no-previous classification witness. -/
def c4Cur : Quake :=
  { DateTime := "06 October 2025 - 03:04:00 PM", Latitude := "10.00",
    Longitude := "124.00", Depth := "010", Magnitude := "5.0",
    Location := "Cebu City", Origin := "Cebu City",
    Bulletin := "2025_1006_070400_B1.html" }

/-- Record whose bulletin reference is missing, so no sequence number is
extractable. -/
def c6NoBulletin : Quake :=
  { DateTime := "06 October 2025 - 03:04:00 PM", Latitude := "10.00",
    Longitude := "124.00", Depth := "010", Magnitude := "5.0",
    Location := "Cebu City", Origin := "Cebu City", Bulletin := "" }

/-- Ledger candidate for the missing-bulletin scenario. -/
def c6P : Quake :=
  { DateTime := "06 October 2025 - 03:04:00 PM", Latitude := "10.00",
    Longitude := "124.00", Depth := "010", Magnitude := "4.8",
    Location := "Cebu City", Origin := "Cebu City",
    Bulletin := "2025_1006_070400_B1.html" }

/-- Ledger for the missing-bulletin scenario. -/
def c6Ledger : List (String × Quake) :=
  [(quakeOriginKey c6P, c6P)]

/-! ### Claim theorems -/

/-- C2.  The Temporal Key Matcher's tolerance-0 mode is claimed to report
two timestamps that differ only in seconds (absolute difference truncating
to zero minutes) as the same minute; the code rejects them, contradicting
the function's own doc comment ("same date and time up to minute
precision (ignoring seconds)"): at a 30-second jitter the spec-side
same-minute test holds while `sameDateAndTimeHM` returns false. -/
theorem sameDateAndTimeHM_second_jitter_bug :
    specSameMinute "06 October 2025 - 03:04:30 PM" "06 October 2025 - 03:04:00 PM" = true ∧
    sameDateAndTimeHM "06 October 2025 - 03:04:30 PM" "06 October 2025 - 03:04:00 PM" = false := by
  decide

/-- C7.  Record Diff returns false on two identical records, and returns
true exactly when at least one of the six tracked fields (magnitude,
depth, location, latitude, longitude, bulletin reference) differs under
exact text comparison. -/
theorem quakeChanged_spec (a b : Quake) :
    quakeChanged a a = false ∧
    (quakeChanged a b = true ↔
      (a.Magnitude ≠ b.Magnitude ∨ a.Depth ≠ b.Depth ∨ a.Location ≠ b.Location ∨
       a.Latitude ≠ b.Latitude ∨ a.Longitude ≠ b.Longitude ∨ a.Bulletin ≠ b.Bulletin)) := by
  constructor
  · simp [quakeChanged]
  · simp only [quakeChanged, Bool.or_eq_true, bne_iff_ne, ne_eq]
    tauto

/-- The Levenshtein recurrence is zero on equal lists, for any fuel. -/
theorem levFuel_self (fuel : Nat) (x : List Char) : levFuel fuel x x = 0 := by
  induction x generalizing fuel with
  | nil => cases fuel <;> simp [levFuel]
  | cons c cs ih => cases fuel <;> simp [levFuel, ih]

/-- The Levenshtein distance between a list and itself is zero. -/
theorem lev_self (x : List Char) : lev x x = 0 :=
  levFuel_self (x.length + x.length) x

/-- C9.  The Fuzzy Address Matcher is reflexive: the similarity of any
string with itself is 100, the both-empty case included. -/
theorem AddressSimilarity_refl (a : String) : AddressSimilarity a a = 100 := by
  unfold AddressSimilarity
  by_cases h : (normalizeAddress a).length = 0
  · simp [h]
  · simp [h, lev_self]

/-- C1, counterexample.  In `determinePastQuakeThroughHeuristics` the
is-revision scan finds `c1P1` (it is in the ledger and `isRevisedQuake`
accepts it first), yet the resolved previous record is `c1P2`: the
fuzzy-address scan runs even though the is-revision scan found a
candidate, and its first accepted candidate overrides the is-revision
match. -/
theorem determinePastQuake_isRevision_overridden_counterexample :
    isRevisedQuake c1Cur c1P1 = true ∧
    ((c1Ledger.map Prod.snd).find? fun pastQ => isRevisedQuake c1Cur pastQ) = some c1P1 ∧
    determinePastQuakeThroughHeuristics 0 c1Ledger c1Cur = some c1P2 ∧
    c1P2 ≠ c1P1 := by
  with_unfolding_all decide

/-- C1, amended.  The fuzzy-address scan is not guarded by the outcome of
the is-revision scan: it always runs, its first accepted candidate is the
resolved previous record, and the is-revision scan's match is the result
only when the fuzzy-address scan accepts no candidate. -/
theorem determinePastQuake_fuzzy_overrides (cutoff : Int)
    (lastFetchQuakes : List (String × Quake)) (currentQuake : Quake) :
    (∀ p : Quake,
      ((filterQuakesByDateTime (mapEqToSlice cutoff lastFetchQuakes).2
          currentQuake.DateTime).find? fun pastQ => fuzzyAccept currentQuake pastQ) = some p →
      determinePastQuakeThroughHeuristics cutoff lastFetchQuakes currentQuake = some p) ∧
    (((filterQuakesByDateTime (mapEqToSlice cutoff lastFetchQuakes).2
          currentQuake.DateTime).find? fun pastQ => fuzzyAccept currentQuake pastQ) = none →
      determinePastQuakeThroughHeuristics cutoff lastFetchQuakes currentQuake =
        ((lastFetchQuakes.map Prod.snd).find? fun pastQ => isRevisedQuake currentQuake pastQ)) := by
  constructor
  · intro p h
    simp only [determinePastQuakeThroughHeuristics]
    rw [h]
  · intro h
    simp only [determinePastQuakeThroughHeuristics]
    rw [h]

/-- C1, witness for the amended theorem at the concrete scenario. -/
theorem determinePastQuake_fuzzy_overrides_witness :
    determinePastQuakeThroughHeuristics 0 c1Ledger c1Cur = some c1P2 :=
  (determinePastQuake_fuzzy_overrides 0 c1Ledger c1Cur).1 c1P2
    (by with_unfolding_all decide)

/-- C6, counterexample.  A record with no extractable bulletin sequence
number (`getBulletinNumber` fails, yielding `(0, false)`) still passes the
eligibility guard of `main` (`bulletinNo != 1`), so the revision heuristic
is attempted for it. -/
theorem revisionHeuristicEligible_missing_bulletin_counterexample :
    getBulletinNumber c6NoBulletin.Bulletin = (0, false) ∧
    revisionHeuristicEligible c6NoBulletin = true := by
  decide

/-- C6, amended.  The heuristic is attempted exactly when the extracted
bulletin number differs from 1 — extraction failure yields 0, so a record
with a missing bulletin reference is also attempted — but for such a
record the heuristics can never resolve a previous record, because both
scans require the current record's extraction to succeed or its number to
exceed a candidate's. -/
theorem revisionHeuristic_eligibility_amended :
    (∀ q : Quake, revisionHeuristicEligible q = true ↔ (getBulletinNumber q.Bulletin).1 ≠ 1) ∧
    (∀ (cutoff : Int) (lastFetchQuakes : List (String × Quake)) (currentQuake : Quake),
      getBulletinNumber currentQuake.Bulletin = (0, false) →
      determinePastQuakeThroughHeuristics cutoff lastFetchQuakes currentQuake = none) := by
  constructor
  · intro q
    simp [revisionHeuristicEligible]
  · intro cutoff lastFetchQuakes currentQuake h
    have h1 : ∀ p : Quake, isRevisedQuake currentQuake p = false := by
      intro p
      simp [isRevisedQuake, h]
    have h2 : ∀ p : Quake, fuzzyAccept currentQuake p = false := by
      intro p
      simp [fuzzyAccept, h]
    simp only [determinePastQuakeThroughHeuristics]
    rw [List.find?_eq_none.mpr fun p _ => by simp [h2 p]]
    rw [List.find?_eq_none.mpr fun p _ => by simp [h1 p]]

/-- C6, witness for the amended theorem: the missing-bulletin record is
eligible, and the heuristics resolve nothing for it over a non-empty
ledger. -/
theorem revisionHeuristic_eligibility_amended_witness :
    revisionHeuristicEligible c6NoBulletin = true ∧
    determinePastQuakeThroughHeuristics 0 c6Ledger c6NoBulletin = none :=
  ⟨(revisionHeuristic_eligibility_amended.1 c6NoBulletin).mpr (by decide),
   revisionHeuristic_eligibility_amended.2 0 c6Ledger c6NoBulletin (by decide)⟩

/-- C3.  The notified ledger holds an entry with the exact bulletin
reference of the incoming record and a timestamp in the same truncated
minute (30 seconds of jitter), the record diff reports a change and the
record is significant — the claim (and the doc comments of
`isKnownBulletin` and `sameDateAndTimeHM`) call for Duplicate, but the
code classifies Revised and would re-post, because the exact-equality
tolerance-0 comparison fails to match the jittered timestamp. -/
theorem classifyRecord_reposts_jittered_bulletin :
    classifyRecord constThresh45 0 c3LastFetch c3PostedLedger c3Cur =
      Classification.revised c3Prev ∧
    specSameMinute c3Cur.DateTime c3PostedQ.DateTime = true ∧
    c3PostedQ.Bulletin = c3Cur.Bulletin ∧
    c3PostedQ ∈ c3PostedLedger.map Prod.snd := by
  with_unfolding_all decide

/-- C4.  When identity resolution finds no previous snapshot, the record
is classified Duplicate when its fine key is present in the notified
ledger; otherwise it is classified New exactly when its magnitude parses
and is at or above the geo-threshold for its own coordinates, and
Insignificant otherwise (an unparseable magnitude is likewise
suppressed). -/
theorem classifyRecord_no_previous_spec (threshFor : String → String → ℚ)
    (cutoff : Int) (lastFetchQuakes postedQuakes : List (String × Quake))
    (currentQuake : Quake)
    (hres : resolveIdentity cutoff lastFetchQuakes currentQuake = none) :
    ((List.lookup (quakeLocationKey currentQuake) postedQuakes).isSome = true →
      classifyRecord threshFor cutoff lastFetchQuakes postedQuakes currentQuake =
        Classification.duplicate) ∧
    (List.lookup (quakeLocationKey currentQuake) postedQuakes = none →
      ((classifyRecord threshFor cutoff lastFetchQuakes postedQuakes currentQuake =
          Classification.newQ ↔
        ∃ magVal : ℚ, parseDecimal currentQuake.Magnitude = some magVal ∧
          threshFor currentQuake.Latitude currentQuake.Longitude ≤ magVal) ∧
       (classifyRecord threshFor cutoff lastFetchQuakes postedQuakes currentQuake =
          Classification.insignificant ↔
        ¬ ∃ magVal : ℚ, parseDecimal currentQuake.Magnitude = some magVal ∧
          threshFor currentQuake.Latitude currentQuake.Longitude ≤ magVal))) := by
  constructor
  · intro hpost
    simp [classifyRecord, hres, hpost]
  · intro hpost
    cases hm : parseDecimal currentQuake.Magnitude with
    | none => simp [classifyRecord, hres, hpost, hm]
    | some magVal =>
      by_cases hle : threshFor currentQuake.Latitude currentQuake.Longitude ≤ magVal
      · simp [classifyRecord, hres, hpost, hm, hle]
      · simp [classifyRecord, hres, hpost, hm, hle]

/-- C4, witness: an unseen record with magnitude 5.0 and first bulletin,
against empty ledgers, is classified New. -/
theorem classifyRecord_no_previous_spec_witness :
    classifyRecord constThresh45 0 [] [] c4Cur = Classification.newQ :=
  (((classifyRecord_no_previous_spec constThresh45 0 [] [] c4Cur
      (by decide)).2 (by decide)).1).mpr
    ⟨5, by with_unfolding_all decide, by norm_num [constThresh45]⟩

/-- C5.  The Geo-Threshold Policy returns only the local threshold (4.0)
or the global threshold (4.5), and returns the local one exactly when both
coordinates parse and the haversine distance (Earth radius 6371 km) to the
reference point is at most the configured radius — so any parse failure,
and any pair strictly beyond the radius, yields the global threshold. -/
theorem magnitudeThresholdFor_spec (refPointLat refPointLon refRadiusKm : ℝ)
    (latStr lonStr : String) :
    (magnitudeThresholdFor refPointLat refPointLon refRadiusKm latStr lonStr =
        LOCAL_MAG_THRESH ∨
     magnitudeThresholdFor refPointLat refPointLon refRadiusKm latStr lonStr =
        GLOBAL_MAG_THRESH) ∧
    (magnitudeThresholdFor refPointLat refPointLon refRadiusKm latStr lonStr =
        LOCAL_MAG_THRESH ↔
      ∃ lat lon : ℚ, parseDecimal latStr = some lat ∧ parseDecimal lonStr = some lon ∧
        distanceKm lat lon refPointLat refPointLon ≤ refRadiusKm) := by
  have hne : GLOBAL_MAG_THRESH ≠ LOCAL_MAG_THRESH := by
    unfold GLOBAL_MAG_THRESH LOCAL_MAG_THRESH
    norm_num
  cases hlat : parseDecimal latStr with
  | none =>
    have hval : magnitudeThresholdFor refPointLat refPointLon refRadiusKm latStr lonStr =
        GLOBAL_MAG_THRESH := by
      cases hlon : parseDecimal lonStr <;> simp [magnitudeThresholdFor, hlat, hlon]
    refine ⟨Or.inr hval, hval ▸ ⟨fun h => absurd h hne, ?_⟩⟩
    rintro ⟨lat, lon, hlat', -, -⟩
    exact absurd hlat' (by simp)
  | some lat =>
    cases hlon : parseDecimal lonStr with
    | none =>
      have hval : magnitudeThresholdFor refPointLat refPointLon refRadiusKm latStr lonStr =
          GLOBAL_MAG_THRESH := by
        simp [magnitudeThresholdFor, hlat, hlon]
      refine ⟨Or.inr hval, hval ▸ ⟨fun h => absurd h hne, ?_⟩⟩
      rintro ⟨lat', lon', -, hlon', -⟩
      exact absurd hlon' (by simp)
    | some lon =>
      by_cases hd : distanceKm lat lon refPointLat refPointLon ≤ refRadiusKm
      · have hval : magnitudeThresholdFor refPointLat refPointLon refRadiusKm latStr lonStr =
            LOCAL_MAG_THRESH := by
          simp [magnitudeThresholdFor, hlat, hlon, if_pos hd]
        exact ⟨Or.inl hval, hval ▸ ⟨fun _ => ⟨lat, lon, rfl, rfl, hd⟩, fun _ => rfl⟩⟩
      · have hval : magnitudeThresholdFor refPointLat refPointLon refRadiusKm latStr lonStr =
            GLOBAL_MAG_THRESH := by
          simp [magnitudeThresholdFor, hlat, hlon, if_neg hd]
        refine ⟨Or.inr hval, hval ▸ ⟨fun h => absurd h hne, ?_⟩⟩
        rintro ⟨lat', lon', hlat', hlon', hd'⟩
        injection hlat' with hlat2
        injection hlon' with hlon2
        subst hlat2
        subst hlon2
        exact absurd hd' hd

/-- C8.  The retention-and-ordering slice contains no entry whose parsed
timestamp is older than the two-month cutoff — every element's timestamp
parses to an instant at or after the cutoff, for every input ledger in any
order — and the slice is sorted newest-first by parsed timestamp. -/
theorem mapEqToSlice_retention_sorted (cutoff : Int) (m : List (String × Quake)) :
    (∀ q ∈ (mapEqToSlice cutoff m).2,
      ∃ t, parseDateTime q.DateTime = some t ∧ cutoff ≤ t) ∧
    List.Sorted newerEq (mapEqToSlice cutoff m).2 := by
  constructor
  · intro q hq
    have hq' : q ∈ survivingQuakes cutoff m :=
      (List.perm_insertionSort newerEq (survivingQuakes cutoff m)).mem_iff.mp hq
    rcases List.mem_map.mp hq' with ⟨kv, hkvmem, rfl⟩
    have hpred := (List.mem_filter.mp hkvmem).2
    revert hpred
    cases hpt : parseDateTime kv.2.DateTime with
    | none => intro hpred; simp at hpred
    | some t =>
      intro hpred
      exact ⟨t, rfl, by simpa using hpred⟩
  · exact List.sorted_insertionSort newerEq (survivingQuakes cutoff m)

/-- C10.  The retention pass updates the caller's map in place: an entry
stays in the map exactly when it is not a parsed-and-stale entry, and an
entry whose timestamp fails to parse stays in the map while being omitted
from the returned slice. -/
theorem mapEqToSlice_mutates_in_place (cutoff : Int) (m : List (String × Quake))
    (k : String) (v : Quake) :
    ((k, v) ∈ (mapEqToSlice cutoff m).1 ↔
      (k, v) ∈ m ∧ ¬ ∃ t, parseDateTime v.DateTime = some t ∧ t < cutoff) ∧
    (parseDateTime v.DateTime = none → (k, v) ∈ m →
      ((k, v) ∈ (mapEqToSlice cutoff m).1 ∧ v ∉ (mapEqToSlice cutoff m).2)) := by
  have hmain : (k, v) ∈ (mapEqToSlice cutoff m).1 ↔
      (k, v) ∈ m ∧ ¬ ∃ t, parseDateTime v.DateTime = some t ∧ t < cutoff := by
    show (k, v) ∈ prunedLedger cutoff m ↔ _
    rw [prunedLedger, List.mem_filter]
    cases hpt : parseDateTime v.DateTime with
    | none => simp [hpt]
    | some t =>
      simp only [hpt]
      constructor
      · rintro ⟨hmem, hpred⟩
        refine ⟨hmem, ?_⟩
        rintro ⟨t', ht', hlt⟩
        cases ht'
        have : cutoff ≤ t := by simpa using hpred
        omega
      · rintro ⟨hmem, hno⟩
        refine ⟨hmem, ?_⟩
        have : cutoff ≤ t := by
          by_contra hcon
          exact hno ⟨t, rfl, by omega⟩
        simpa using this
  refine ⟨hmain, fun hnone hmem => ⟨?_, ?_⟩⟩
  · refine hmain.mpr ⟨hmem, ?_⟩
    rintro ⟨t, ht, -⟩
    rw [hnone] at ht
    exact absurd ht (by simp)
  · intro hv
    have hv' : v ∈ survivingQuakes cutoff m :=
      (List.perm_insertionSort newerEq (survivingQuakes cutoff m)).mem_iff.mp hv
    rcases List.mem_map.mp hv' with ⟨kv, hkvmem, hkv⟩
    have hpred := (List.mem_filter.mp hkvmem).2
    rw [hkv, hnone] at hpred
    simp at hpred

/-- A recent ledger entry, within the retention window. -/
def c8Fresh : Quake :=
  { DateTime := "06 October 2025 - 03:05:00 PM", Latitude := "10.10",
    Longitude := "124.10", Depth := "012", Magnitude := "4.9",
    Location := "Cebu City", Origin := "Cebu City",
    Bulletin := "2025_1006_070500_B1.html" }

/-- A stale ledger entry, older than the retention cutoff. -/
def c8Old : Quake :=
  { DateTime := "01 January 2020 - 01:00:00 AM", Latitude := "10.00",
    Longitude := "124.00", Depth := "010", Magnitude := "4.8",
    Location := "Davao City", Origin := "Davao City",
    Bulletin := "2020_0101_010000_B1.html" }

/-- A ledger entry whose timestamp does not parse. -/
def c8Bad : Quake :=
  { DateTime := "sometime last week", Latitude := "10.00",
    Longitude := "124.00", Depth := "010", Magnitude := "4.8",
    Location := "Iloilo City", Origin := "Iloilo City", Bulletin := "" }

/-- Ledger mixing fresh, stale and unparseable entries, stale first. -/
def c8m : List (String × Quake) :=
  [(quakeOriginKey c8Old, c8Old), (quakeOriginKey c8Bad, c8Bad),
   (quakeOriginKey c8Fresh, c8Fresh)]

/-- C8, witness: with a cutoff between the stale and fresh instants, the
fresh entry of the slice parses at or after the cutoff, and the slice is
sorted newest-first. -/
theorem mapEqToSlice_retention_sorted_witness :
    (∃ t, parseDateTime c8Fresh.DateTime = some t ∧ (63895359000 : Int) ≤ t) ∧
    List.Sorted newerEq (mapEqToSlice 63895359000 c8m).2 :=
  ⟨(mapEqToSlice_retention_sorted 63895359000 c8m).1 c8Fresh (by decide),
   (mapEqToSlice_retention_sorted 63895359000 c8m).2⟩

/-- Two-entry ledger whose first entry has an unparseable timestamp. -/
def c10m : List (String × Quake) :=
  [("k1", c8Bad), ("k2", c8Fresh)]

/-- C10, witness: over a two-entry map whose first entry has an
unparseable timestamp, that entry survives in the updated map and is
absent from the returned slice. -/
theorem mapEqToSlice_mutates_in_place_witness :
    ("k1", c8Bad) ∈ (mapEqToSlice 0 c10m).1 ∧ c8Bad ∉ (mapEqToSlice 0 c10m).2 :=
  (mapEqToSlice_mutates_in_place 0 c10m "k1" c8Bad).2 (by decide) (by decide)

end PhivolcsEq
